import Mathlib

/-!
Verification of the session/dispatch runtime of the nutrition-coach
repository: a shallow embedding in Lean 4 of the entities
(Message, NutritionContext, UserProfile), the durable reminder workflow
(ReminderWorkflow), the server-side dispatch chain (ConnectionHandler,
CommandHandler, ChatMessageHandler) and the client reconnect supervisor
(useWebSocket), together with theorems settling the spec claims.

Conventions of the embedding:
- JavaScript numbers used as timestamps and counters are modelled as Nat.
- Calls to Date.now() and crypto.randomUUID() are environment inputs and
  appear as explicit parameters (now, freshId).
- JavaScript Map objects are modelled as insertion-ordered association
  lists with in-place update on an existing key.
- Exceptions are modelled with Except String; a JS try/catch around a
  block becomes a match on the Except value.
-/

namespace CfAiChat

/-! Core types, from src/core/types/index.ts. -/

inductive MessageRole where
  | user
  | assistant
  | system
deriving DecidableEq, Repr

structure ChatMessage where
  id : String
  role : MessageRole
  content : String
  timestamp : Nat
deriving DecidableEq, Repr

structure NutritionData where
  calories : Int
  protein : Int
  carbs : Int
  fat : Int
  fiber : Option Int
deriving DecidableEq, Repr

structure MealAnalysis where
  mealName : String
  nutrition : NutritionData
  healthScore : Int
  insights : List String
deriving DecidableEq, Repr

inductive FitnessGoal where
  | weightLoss
  | muscleGain
  | maintenance
deriving DecidableEq, Repr

structure UserGoals where
  dailyCalories : Option Int
  dailyProtein : Option Int
  dietaryRestrictions : Option (List String)
  fitnessGoal : Option FitnessGoal
deriving DecidableEq, Repr

/-! NutritionContext entity, from src/core/entities/NutritionContext.ts.
The conversation history is most-recent-last, exactly as the source
pushes onto the array. -/

structure NutritionContext where
  conversationHistory : List ChatMessage
  currentMeal : Option MealAnalysis
  userGoals : Option UserGoals
  sessionStartTime : Nat
deriving DecidableEq, Repr

/-- Constructor of NutritionContext: empty history, no current meal or
goals, sessionStartTime set from Date.now() (passed as now). -/
def NutritionContext.create (now : Nat) : NutritionContext :=
  { conversationHistory := []
    currentMeal := none
    userGoals := none
    sessionStartTime := now }

/-- List-level body of NutritionContext.addMessage: push the message,
then if the length exceeds 20 keep only slice(-20), the last 20
entries. -/
def appendKeep20 (history : List ChatMessage) (message : ChatMessage) :
    List ChatMessage :=
  let pushed := history ++ [message]
  if pushed.length > 20 then pushed.drop (pushed.length - 20) else pushed

/-- NutritionContext.addMessage from the source: mutates only the
conversationHistory field. -/
def NutritionContext.addMessage (ctx : NutritionContext)
    (message : ChatMessage) : NutritionContext :=
  { ctx with conversationHistory := appendKeep20 ctx.conversationHistory message }

/-- Suffix of the last n entries of a list (empty-padded lists are kept
whole when shorter than n). -/
def lastN (n : Nat) (l : List ChatMessage) : List ChatMessage :=
  l.drop (l.length - n)

/-! UserProfile entity, from src/core/entities/UserProfile.ts.
The preferences field is Record<string, any> in the source; its values
are never inspected by the core, so they are modelled as opaque-to-us
string blobs in an association list. -/

structure UserProfile where
  userId : String
  goals : UserGoals
  mealHistory : List MealAnalysis
  preferences : List (String × String)
  createdAt : Nat
  updatedAt : Nat
deriving DecidableEq, Repr

/-! Serialized (stored) shapes of the two records. toJSON writes a plain
object with every field present; fromJSON reads a plain object in which
the fields guarded with a JavaScript default (new-UserProfile goals
default, mealHistory or-empty, preferences or-empty,
conversationHistory or-empty) may be absent, hence those are Option in
the stored shape. -/

structure UserProfileJSON where
  userId : String
  goals : Option UserGoals
  mealHistory : Option (List MealAnalysis)
  preferences : Option (List (String × String))
  createdAt : Nat
  updatedAt : Nat
deriving DecidableEq, Repr

/-- UserProfile.toJSON from the source: every observable field is
written to the plain object. -/
def UserProfile.toJSON (p : UserProfile) : UserProfileJSON :=
  { userId := p.userId
    goals := some p.goals
    mealHistory := some p.mealHistory
    preferences := some p.preferences
    createdAt := p.createdAt
    updatedAt := p.updatedAt }

/-- UserProfile.fromJSON from the source: constructor with
(data.userId, data.goals), then mealHistory or-empty, preferences
or-empty, and the stored createdAt and updatedAt written over the
constructor timestamps. The constructor defaults goals to the empty
object when absent. -/
def UserProfile.fromJSON (data : UserProfileJSON) : UserProfile :=
  { userId := data.userId
    goals := data.goals.getD { dailyCalories := none, dailyProtein := none,
                               dietaryRestrictions := none, fitnessGoal := none }
    mealHistory := data.mealHistory.getD []
    preferences := data.preferences.getD []
    createdAt := data.createdAt
    updatedAt := data.updatedAt }

structure NutritionContextJSON where
  conversationHistory : Option (List ChatMessage)
  currentMeal : Option MealAnalysis
  userGoals : Option UserGoals
  sessionStartTime : Nat
deriving DecidableEq, Repr

/-- NutritionContext.toJSON from the source. -/
def NutritionContext.toJSON (ctx : NutritionContext) : NutritionContextJSON :=
  { conversationHistory := some ctx.conversationHistory
    currentMeal := ctx.currentMeal
    userGoals := ctx.userGoals
    sessionStartTime := ctx.sessionStartTime }

/-- NutritionContext.fromJSON from the source: fresh context, then
conversationHistory or-empty, currentMeal, userGoals, and the stored
sessionStartTime written over the constructor timestamp. -/
def NutritionContext.fromJSON (data : NutritionContextJSON) : NutritionContext :=
  { conversationHistory := data.conversationHistory.getD []
    currentMeal := data.currentMeal
    userGoals := data.userGoals
    sessionStartTime := data.sessionStartTime }

/-! ReminderWorkflow, from src/infrastructure/workflows/ReminderWorkflow.ts.
The Durable Object pieces it touches are the in-memory scheduledReminders
Map (persisted as the scheduled_reminders blob), the durable
workflow:<id> entries, and the single Durable Object alarm slot
(storage.setAlarm replaces whatever alarm is currently armed). The
executed field is the observable log of task bodies that ran (the
reminder-history writes of executeMealReminder and the execution of the
other bodies). -/

inductive WorkflowState where
  | pending
  | running
  | completed
  | failed
  | cancelled
deriving DecidableEq, Repr

/-- String form of a workflow state, as it appears inside the template
literals of the source error messages. -/
def WorkflowState.asString : WorkflowState → String
  | .pending => "pending"
  | .running => "running"
  | .completed => "completed"
  | .failed => "failed"
  | .cancelled => "cancelled"

structure WorkflowStatus where
  workflowId : String
  workflowName : String
  state : WorkflowState
  startedAt : Option Nat
  completedAt : Option Nat
  error : Option String
deriving DecidableEq, Repr

structure WorkflowContext where
  userId : String
  workflowId : String
  data : List (String × String)
deriving DecidableEq, Repr

/-- Durable workflow:<id> entry written by scheduleWorkflow. -/
structure StoredWorkflow where
  workflowName : String
  context : WorkflowContext
  scheduledTime : Nat
deriving DecidableEq, Repr

/-- Map.set on an insertion-ordered association list: update in place
when the key exists, append otherwise. -/
def mapSet (m : List (String × α)) (k : String) (v : α) : List (String × α) :=
  if m.any (fun p => p.1 = k) then
    m.map (fun p => if p.1 = k then (k, v) else p)
  else m ++ [(k, v)]

/-- Map/storage delete on an association list. -/
def mapDelete (m : List (String × α)) (k : String) : List (String × α) :=
  m.filter (fun p => p.1 ≠ k)

structure ReminderStore where
  scheduledReminders : List (String × WorkflowStatus)
  storedWorkflows : List (String × StoredWorkflow)
  alarm : Option Nat
  executed : List String
deriving DecidableEq, Repr

/-- Store of a freshly constructed ReminderWorkflow: no tasks, no armed
alarm, nothing executed. -/
def ReminderStore.empty : ReminderStore :=
  { scheduledReminders := [], storedWorkflows := [], alarm := none, executed := [] }

/-- ReminderWorkflow.executeWorkflow: the three known task bodies
succeed; any other name throws an Unknown-workflow error. -/
def executeWorkflow (workflowName : String) : Except String Unit :=
  match workflowName with
  | "meal-reminder" => .ok ()
  | "daily-summary" => .ok ()
  | "goal-check-in" => .ok ()
  | _ => .error ("Unknown workflow: " ++ workflowName)

/-- ReminderWorkflow.scheduleWorkflow: create a pending status, write
the durable workflow:<id> entry, record the status in the Map, and call
storage.setAlarm(timestamp), which arms the single Durable Object alarm
to exactly that time, replacing any alarm already armed. The freshId
parameter stands for crypto.randomUUID(), used when the context carries
no workflowId. -/
def scheduleWorkflow (s : ReminderStore) (workflowName : String)
    (context : WorkflowContext) (scheduledTime : Nat) (freshId : String) :
    ReminderStore :=
  let workflowId := if context.workflowId = "" then freshId else context.workflowId
  let status : WorkflowStatus :=
    { workflowId := workflowId
      workflowName := workflowName
      state := .pending
      startedAt := some scheduledTime
      completedAt := none
      error := none }
  let stored : StoredWorkflow :=
    { workflowName := workflowName, context := context, scheduledTime := scheduledTime }
  { s with
    storedWorkflows := mapSet s.storedWorkflows workflowId stored
    scheduledReminders := mapSet s.scheduledReminders workflowId status
    alarm := some scheduledTime }

/-- ReminderWorkflow.cancelWorkflow: throws when the id is unknown,
throws a state error when the status is completed or failed, and
otherwise marks the status cancelled with completedAt := Date.now().
The durable workflow:<id> entry is left untouched. -/
def cancelWorkflow (s : ReminderStore) (workflowId : String) (now : Nat) :
    Except String ReminderStore :=
  match List.lookup workflowId s.scheduledReminders with
  | none => .error ("Workflow " ++ workflowId ++ " not found")
  | some status =>
    if status.state = .completed ∨ status.state = .failed then
      .error ("Cannot cancel " ++ status.state.asString ++ " workflow")
    else
      let status2 := { status with state := WorkflowState.cancelled, completedAt := some now }
      .ok { s with scheduledReminders := mapSet s.scheduledReminders workflowId status2 }

/-- Body of one iteration of the handleAlarm loop over the listed
workflow:<id> entries: a due entry has its body executed; on success
the status (when present in the Map) becomes completed and the durable
entry is deleted; on failure the status becomes failed with the error
captured and the entry stays. The alarm slot is never touched. -/
def sweepTask (now : Nat) (s : ReminderStore) (entry : String × StoredWorkflow) :
    ReminderStore :=
  if entry.2.scheduledTime ≤ now then
    match executeWorkflow entry.2.workflowName with
    | .ok _ =>
      let s1 := { s with executed := s.executed ++ [entry.1] }
      let s2 :=
        match List.lookup entry.1 s1.scheduledReminders with
        | some status =>
          let status2 := { status with state := WorkflowState.completed, completedAt := some now }
          { s1 with scheduledReminders := mapSet s1.scheduledReminders entry.1 status2 }
        | none => s1
      { s2 with storedWorkflows := mapDelete s2.storedWorkflows entry.1 }
    | .error e =>
      match List.lookup entry.1 s.scheduledReminders with
      | some status =>
        let status2 := { status with state := WorkflowState.failed, error := some e }
        { s with scheduledReminders := mapSet s.scheduledReminders entry.1 status2 }
      | none => s
  else s

/-- ReminderWorkflow.handleAlarm: sweep every durable workflow:<id>
entry listed at entry to the handler (the Durable Object list
enumeration; per-entry effects touch disjoint keys, so enumeration
order does not affect the final store). No alarm is re-armed
afterwards. -/
def handleAlarm (s : ReminderStore) (now : Nat) : ReminderStore :=
  s.storedWorkflows.foldl (sweepTask now) s

/-- One externally triggered operation on the reminder subsystem. -/
inductive ReminderOp where
  | schedule (workflowName : String) (context : WorkflowContext)
      (scheduledTime : Nat) (freshId : String)
  | sweep (now : Nat)
  | cancel (workflowId : String) (now : Nat)

/-- Effect of one operation on the store; a thrown cancel leaves the
store unchanged (the source throws before mutating anything). -/
def applyOp (s : ReminderStore) (op : ReminderOp) : ReminderStore :=
  match op with
  | .schedule name ctx t freshId => scheduleWorkflow s name ctx t freshId
  | .sweep now => handleAlarm s now
  | .cancel workflowId now =>
    match cancelWorkflow s workflowId now with
    | .ok s2 => s2
    | .error _ => s

/-- Run of a sequence of operations from the empty store. -/
def runOps (ops : List ReminderOp) : ReminderStore :=
  ops.foldl applyOp ReminderStore.empty

/-- Due time of the earliest task whose status is still pending. -/
def earliestPendingDue (s : ReminderStore) : Option Nat :=
  ((s.storedWorkflows.filter (fun p =>
      (List.lookup p.1 s.scheduledReminders).map (fun st => st.state)
        = some WorkflowState.pending)).map
    (fun p => p.2.scheduledTime)).foldr
    (fun t acc => match acc with | none => some t | some u => some (min t u)) none

/-- Due time of the most recently scheduled task over a run, the
quantity the alarm slot actually tracks. -/
def lastScheduledDue (ops : List ReminderOp) : Option Nat :=
  ops.foldl (fun acc op => match op with
    | .schedule _ _ t _ => some t
    | _ => acc) none

/-- Boolean success of a cancelWorkflow call. -/
def cancelSucceeds (s : ReminderStore) (workflowId : String) (now : Nat) : Bool :=
  match cancelWorkflow s workflowId now with
  | .ok _ => true
  | .error _ => false

/-- Fixture: a status for task w1 in a given state. -/
def wStatus (state : WorkflowState) : WorkflowStatus :=
  { workflowId := "w1", workflowName := "meal-reminder", state := state,
    startedAt := some 10, completedAt := none, error := none }

/-- Fixture: the durable entry of task w1. -/
def wStored : StoredWorkflow :=
  { workflowName := "meal-reminder"
    context := { userId := "u1", workflowId := "w1", data := [] }
    scheduledTime := 10 }

/-- Fixture: a store holding the single task w1 in a given state. -/
def oneTaskStore (state : WorkflowState) : ReminderStore :=
  { scheduledReminders := [("w1", wStatus state)]
    storedWorkflows := [("w1", wStored)]
    alarm := some 10
    executed := [] }

/-! Message dispatch, from src/infrastructure/websocket/ConnectionHandler.ts
together with the two registered handlers
(src/application/handlers/CommandHandler.ts and ChatMessageHandler.ts,
registered in that order by NutritionAgent.setupMessageHandlers). String
normalization models the JavaScript trim/toLowerCase pair on the ASCII
range the sources use, and the regular expressions of
CommandHandler.canHandle are compiled by hand into character-list
matching functions: each \s+ is greedy, which is exact here because no
literal following a \s+ in those patterns starts with whitespace. -/

/-- Model of String.prototype.trim: strip leading and trailing
whitespace. -/
def jsTrim (s : String) : String :=
  String.mk (((s.data.dropWhile Char.isWhitespace).reverse.dropWhile
    Char.isWhitespace).reverse)

/-- Model of String.prototype.toLowerCase on the ASCII range. -/
def jsToLower (s : String) : String :=
  String.mk (s.data.map Char.toLower)

/-- Match a literal character sequence at the head, returning the
remainder on success. -/
def matchLit : List Char → List Char → Option (List Char)
  | [], cs => some cs
  | _ :: _, [] => none
  | p :: ps, c :: cs => if c = p then matchLit ps cs else none

/-- Match one or more whitespace characters at the head (greedy),
returning the remainder. -/
def matchWs1 : List Char → Option (List Char)
  | [] => none
  | c :: cs => if c.isWhitespace then some (cs.dropWhile Char.isWhitespace) else none

/-- Regex analyze-then-whitespace anchored at the start. -/
def patAnalyze (cs : List Char) : Bool :=
  ((matchLit "analyze".data cs).bind matchWs1).isSome

/-- Regex set-whitespace-goal anchored at the start. -/
def patSetGoal (cs : List Char) : Bool :=
  (((matchLit "set".data cs).bind matchWs1).bind (matchLit "goal".data)).isSome

/-- Regex my-whitespace-goal-optional-s anchored at both ends. -/
def patMyGoals (cs : List Char) : Bool :=
  match ((matchLit "my".data cs).bind matchWs1).bind (matchLit "goal".data) with
  | some rest => rest == [] || rest == ['s']
  | none => false

/-- Regex show-whitespace-history anchored at the start. -/
def patShowHistory (cs : List Char) : Bool :=
  (((matchLit "show".data cs).bind matchWs1).bind (matchLit "history".data)).isSome

/-- Regex recommend anchored at the start. -/
def patRecommend (cs : List Char) : Bool :=
  (matchLit "recommend".data cs).isSome

/-- Regex suggest anchored at the start. -/
def patSuggest (cs : List Char) : Bool :=
  (matchLit "suggest".data cs).isSome

/-- Regex help anchored at both ends. -/
def patHelp (cs : List Char) : Bool :=
  cs == "help".data

/-- The what-should-i-eat phrase matched at the head. -/
def whatChainAt (cs : List Char) : Option (List Char) :=
  (((((matchLit "what".data cs).bind matchWs1).bind
      (matchLit "should".data)).bind matchWs1).bind
      (matchLit "i".data)).bind matchWs1 |>.bind (matchLit "eat".data)

/-- Unanchored search for the what-should-i-eat phrase. -/
def patWhatShouldIEat : List Char → Bool
  | [] => false
  | c :: cs => (whatChainAt (c :: cs)).isSome || patWhatShouldIEat cs

/-- CommandHandler.canHandle from the source: trimmed lowercased
content, slash commands first, then the fixed natural-language pattern
list in source order. -/
def commandCanHandle (message : ChatMessage) : Bool :=
  let content := jsToLower (jsTrim message.content)
  if (matchLit "/".data content.data).isSome then true
  else
    patAnalyze content.data || patSetGoal content.data || patMyGoals content.data ||
    patShowHistory content.data || patRecommend content.data || patSuggest content.data ||
    patHelp content.data || patWhatShouldIEat content.data

/-- Substring search (String.prototype.includes). -/
def strContains (needle : List Char) : List Char → Bool
  | [] => (matchLit needle []).isSome
  | c :: cs => (matchLit needle (c :: cs)).isSome || strContains needle cs

/-- Keyword list of ChatMessageHandler.canHandle. -/
def commandKeywords : List String :=
  ["analyze meal", "set goal", "my goals", "meal history", "recommend", "suggest meal"]

/-- ChatMessageHandler.canHandle from the source: false on slash
commands, true otherwise (the keyword loop also returns true, deferring
precedence to registration order). -/
def chatCanHandle (message : ChatMessage) : Bool :=
  let content := jsToLower (jsTrim message.content)
  if (matchLit "/".data content.data).isSome then false
  else if commandKeywords.any (fun k => strContains k.data content.data) then true
  else true

/-- JSON values as produced by a successful JSON.parse. -/
inductive Json where
  | null
  | boolean (b : Bool)
  | number (n : Int)
  | str (s : String)
  | arr (elements : List Json)
  | obj (fields : List (String × Json))

/-- Raw inbound frame: the wire text together with the outcome of
JSON.parse on it (none when JSON.parse throws). -/
structure RawText where
  text : String
  parsed : Option Json

/-- JavaScript property access parsed.content: throws a TypeError on
null, yields the field on an object, and yields undefined on any other
value. -/
def contentAccess : Json → Except Unit (Option Json)
  | .null => .error ()
  | .obj fields => .ok (List.lookup "content" fields)
  | _ => .ok none

/-- The truthy-and-string test of parseMessage: passes exactly for a
nonempty string value. -/
def truthyString : Option Json → Option String
  | some (.str s) => if s = "" then none else some s
  | _ => none

/-- ConnectionHandler.parseMessage: on parseable JSON keep a truthy
string content field as a user Message and reject anything else with
null; when JSON.parse throws (or the property access throws inside the
try block) the whole raw text becomes the content of a user Message.
The freshId and now parameters stand for the Message constructor's
crypto.randomUUID() and Date.now(). -/
def parseMessage (raw : RawText) (freshId : String) (now : Nat) :
    Option ChatMessage :=
  match raw.parsed with
  | none => some { id := freshId, role := .user, content := raw.text, timestamp := now }
  | some v =>
    match contentAccess v with
    | .error _ => some { id := freshId, role := .user, content := raw.text, timestamp := now }
    | .ok c =>
      match truthyString c with
      | some s => some { id := freshId, role := .user, content := s, timestamp := now }
      | none => none

/-- One registered handler as seen by the dispatch loop: canHandle and
handle, either of which may throw. -/
structure HandlerModel where
  canHandle : ChatMessage → Except String Bool
  handle : ChatMessage → Except String ChatMessage

/-- The dispatch loop of handleIncomingMessage: walk the registered
handlers in order, invoke the first whose canHandle returns true and
return its response; none when no handler matched; any thrown error
propagates to the surrounding catch. -/
def findAndRun : List HandlerModel → ChatMessage → Except String (Option ChatMessage)
  | [], _ => .ok none
  | h :: rest, msg =>
    match h.canHandle msg with
    | .error e => .error e
    | .ok true =>
      match h.handle msg with
      | .error e => .error e
      | .ok resp => .ok (some resp)
    | .ok false => findAndRun rest msg

/-- Outbound wire frames of the server. -/
inductive OutFrame where
  | message (role : MessageRole) (content : String) (messageId : String) (timestamp : Nat)
  | system (content : String) (timestamp : Nat)
  | error (content : String) (timestamp : Nat)
  | streamStart (timestamp : Nat)
  | streamChunk (content : String) (timestamp : Nat)
  | streamEnd (timestamp : Nat)
deriving DecidableEq, Repr

/-- Outcome of one handleIncomingMessage call: the frames sent on the
socket and whether the connection was closed (no path of the source
ever closes it). -/
structure DispatchResult where
  sent : List OutFrame
  closed : Bool
deriving DecidableEq, Repr

/-- Response assembly of handleIncomingMessage after a successful
parse: a caught exception becomes an error frame with the detail
appended, no matching handler becomes a fixed error frame, and a
handler response becomes a message frame. -/
def dispatchParsed (handlers : List HandlerModel) (msg : ChatMessage) (now : Nat) :
    DispatchResult :=
  match findAndRun handlers msg with
  | .error e => { sent := [.error ("Failed to process message: " ++ e) now], closed := false }
  | .ok none => { sent := [.error "No handler available for this message" now], closed := false }
  | .ok (some resp) =>
    { sent := [.message resp.role resp.content resp.id resp.timestamp], closed := false }

/-- ConnectionHandler.handleIncomingMessage: parse, reject a null parse
with an Invalid-message-format error frame, otherwise dispatch. -/
def handleIncomingMessage (handlers : List HandlerModel) (raw : RawText)
    (freshId : String) (now : Nat) : DispatchResult :=
  match parseMessage raw freshId now with
  | none => { sent := [.error "Invalid message format" now], closed := false }
  | some msg => dispatchParsed handlers msg now

/-- CommandHandler as a dispatch-chain entry; its handle body (the
command execution against the profile and the LLM) is abstracted as a
parameter. -/
def commandHandlerModel (handleImpl : ChatMessage → Except String ChatMessage) :
    HandlerModel :=
  { canHandle := fun m => .ok (commandCanHandle m), handle := handleImpl }

/-- ChatMessageHandler as a dispatch-chain entry. -/
def chatHandlerModel (handleImpl : ChatMessage → Except String ChatMessage) :
    HandlerModel :=
  { canHandle := fun m => .ok (chatCanHandle m), handle := handleImpl }

/-- The handler chain in the registration order of
NutritionAgent.setupMessageHandlers: CommandHandler first,
ChatMessageHandler second. -/
def registeredHandlers (commandImpl chatImpl : ChatMessage → Except String ChatMessage) :
    List HandlerModel :=
  [commandHandlerModel commandImpl, chatHandlerModel chatImpl]

/-- Recognizer of message frames carrying the assistant role. -/
def isAssistantMessageFrame : OutFrame → Bool
  | .message .assistant _ _ _ => true
  | _ => false

/-- Fixture: a handler whose canHandle throws. -/
def boomHandler : HandlerModel :=
  { canHandle := fun _ => .error "boom", handle := fun m => .ok m }

/-- Fixture: a handler that accepts and echoes every message. -/
def willingHandler : HandlerModel :=
  { canHandle := fun _ => .ok true, handle := fun m => .ok m }

/-- Fixture: a plain-text inbound frame on which JSON.parse throws. -/
def rawHello : RawText :=
  { text := "hi", parsed := none }

/-- Fixture: an inbound frame of valid JSON lacking a content field. -/
def rawNoContent : RawText :=
  { text := "\x7b\"foo\":1\x7d", parsed := some (Json.obj [("foo", Json.number 1)]) }

/-- Fixture: a slash-command message. -/
def cmdMsgFixture : ChatMessage :=
  { id := "m1", role := .user, content := "/recommend", timestamp := 5 }

/-- Fixture: the response of the abstracted command handle body. -/
def cmdRespFixture : ChatMessage :=
  { id := "m2", role := .assistant, content := "resp", timestamp := 6 }

/-- Fixture: a command handle body returning cmdRespFixture. -/
def cmdImplFixture : ChatMessage → Except String ChatMessage :=
  fun _ => .ok cmdRespFixture

/-- Fixture: a fallback handle body, distinguishable from the command
one. -/
def chatImplFixture : ChatMessage → Except String ChatMessage :=
  fun _ => .ok { id := "m3", role := .assistant, content := "fallback", timestamp := 7 }

/-! Client connection supervisor, from frontend/src/hooks/useWebSocket.ts. -/

structure SupervisorState where
  connected : Bool
  reconnectAttempts : Nat
  shouldReconnect : Bool
deriving DecidableEq, Repr

/-- The maxReconnectAttempts constant of the hook. -/
def maxReconnectAttempts : Nat := 5

/-- Supervisor right after the initial connect call of the mount
effect: not yet connected, zero attempts, reconnection enabled. -/
def SupervisorState.initial : SupervisorState :=
  { connected := false, reconnectAttempts := 0, shouldReconnect := true }

/-- ws.onopen: mark connected and reset the retry counter. -/
def onOpen (s : SupervisorState) : SupervisorState :=
  { s with connected := true, reconnectAttempts := 0 }

/-- ws.onclose: mark disconnected; when reconnection is enabled and the
counter is below the maximum, increment the counter and schedule a
retry after min(1000 * 2 ^ attempts, 30000) ms, the exponent being the
counter value after the increment; otherwise schedule nothing. -/
def onClose (s : SupervisorState) : SupervisorState × Option Nat :=
  let s1 := { s with connected := false }
  if s1.shouldReconnect ∧ s1.reconnectAttempts < maxReconnectAttempts then
    let n := s1.reconnectAttempts + 1
    ({ s1 with reconnectAttempts := n }, some (min (1000 * 2 ^ n) 30000))
  else (s1, none)

/-- Iterated close events without an intervening open: the scheduled
delays in order, with the final state. -/
def closeRun : Nat → SupervisorState → List (Option Nat) × SupervisorState
  | 0, s => ([], s)
  | n + 1, s =>
    let step := onClose s
    let rest := closeRun n step.1
    (step.2 :: rest.1, rest.2)

/-- Parsed wire envelope as the client sees it after JSON.parse; every
field may be absent. -/
structure WireFrame where
  type : Option String
  role : Option MessageRole
  content : Option String
  messageId : Option String
  timestamp : Option Nat
deriving DecidableEq, Repr

/-- Message record of the frontend type definitions. -/
structure FrontendMessage where
  id : String
  role : MessageRole
  content : String
  timestamp : Option Nat
deriving DecidableEq, Repr

/-- Truthiness of an optional string field: absent and empty are
falsy. -/
def truthyStr : Option String → Option String
  | some s => if s = "" then none else some s
  | none => none

/-- ws.onmessage from the source: only frames of type message, system
or error carrying truthy content invoke the onMessage callback, with
the conversions of the source (assistant default role and fresh id on
message frames, system role on system frames, system role and an Error
prefix on error frames); every other frame is dropped. The freshId
parameter stands for crypto.randomUUID(). -/
def clientOnMessage (data : WireFrame) (freshId : String) : Option FrontendMessage :=
  if data.type = some "message" then
    match truthyStr data.content with
    | some c =>
      some { id := (truthyStr data.messageId).getD freshId
             role := data.role.getD .assistant
             content := c
             timestamp := data.timestamp }
    | none => none
  else if data.type = some "system" then
    match truthyStr data.content with
    | some c =>
      some { id := freshId, role := .system, content := c, timestamp := data.timestamp }
    | none => none
  else if data.type = some "error" then
    match truthyStr data.content with
    | some c =>
      some { id := freshId, role := .system, content := "Error: " ++ c,
             timestamp := data.timestamp }
    | none => none
  else none

/-- Fixture: a stream chunk frame as emitted by the streaming path of
the server. -/
def streamChunkFrame : WireFrame :=
  { type := some "stream_chunk", role := none, content := some "hello",
    messageId := none, timestamp := some 1 }

/-! Theorems. -/

theorem lookup_cons_self (k : String) (v : α) (m : List (String × α)) :
    List.lookup k ((k, v) :: m) = some v := by
  simp [List.lookup]

theorem lookup_cons_ne (k pk : String) (pv : α) (m : List (String × α))
    (h : ¬ pk = k) : List.lookup k ((pk, pv) :: m) = List.lookup k m := by
  have hbeq : (k == pk) = false := beq_eq_false_iff_ne.mpr (fun e => h e.symm)
  simp [List.lookup, hbeq]

theorem lookup_map_update (k : String) (v : α) :
    ∀ m : List (String × α), m.any (fun p => p.1 = k) = true →
      List.lookup k (m.map (fun p => if p.1 = k then (k, v) else p)) = some v := by
  intro m
  induction m with
  | nil => intro h; simp at h
  | cons p m ih =>
    obtain ⟨pk, pv⟩ := p
    intro h
    by_cases hk : pk = k
    · simp only [List.map_cons, if_pos (by simpa using hk)]
      exact lookup_cons_self k v _
    · simp only [List.map_cons, if_neg (by simpa using hk)]
      rw [lookup_cons_ne k pk pv _ hk]
      apply ih
      simp only [List.any_cons] at h
      rcases Bool.or_eq_true_iff.mp h with h1 | h1
      · exact absurd (of_decide_eq_true h1) hk
      · exact h1

theorem lookup_none_of_not_any (k : String) :
    ∀ m : List (String × α), m.any (fun p => p.1 = k) = false →
      List.lookup k m = none := by
  intro m
  induction m with
  | nil => intro _; rfl
  | cons p m ih =>
    obtain ⟨pk, pv⟩ := p
    intro h
    simp only [List.any_cons, Bool.or_eq_false_iff] at h
    have hk : ¬ pk = k := by
      intro e
      have := h.1
      simp [e] at this
    rw [lookup_cons_ne k pk pv _ hk]
    exact ih h.2

theorem lookup_append_single (k : String) (v : α) :
    ∀ m : List (String × α), m.any (fun p => p.1 = k) = false →
      List.lookup k (m ++ [(k, v)]) = some v := by
  intro m
  induction m with
  | nil => intro _; exact lookup_cons_self k v []
  | cons p m ih =>
    obtain ⟨pk, pv⟩ := p
    intro h
    simp only [List.any_cons, Bool.or_eq_false_iff] at h
    have hk : ¬ pk = k := by
      intro e
      have := h.1
      simp [e] at this
    rw [List.cons_append, lookup_cons_ne k pk pv _ hk]
    exact ih h.2

theorem lookup_mapSet (m : List (String × α)) (k : String) (v : α) :
    List.lookup k (mapSet m k v) = some v := by
  unfold mapSet
  split
  · exact lookup_map_update k v m (by assumption)
  · rename_i hany
    rw [Bool.not_eq_true] at hany
    exact lookup_append_single k v m hany

theorem appendKeep20_lastN (l : List ChatMessage) (m : ChatMessage) :
    appendKeep20 (lastN 20 l) m = lastN 20 (l ++ [m]) := by
  unfold appendKeep20 lastN
  rcases le_or_lt l.length 19 with h | h
  · have h1 : l.length - 20 = 0 := by omega
    have h2 : (l ++ [m]).length - 20 = 0 := by
      simp only [List.length_append, List.length_cons, List.length_nil]
      omega
    rw [h1, h2]
    simp only [List.drop_zero]
    rw [if_neg]
    simp only [List.length_append, List.length_cons, List.length_nil]
    omega
  · have h20 : 20 ≤ l.length := by omega
    have hlen : (l.drop (l.length - 20)).length = 20 := by
      rw [List.length_drop]; omega
    rw [if_pos]
    · have e1 : (l.drop (l.length - 20) ++ [m]).length - 20 = 1 := by
        simp only [List.length_append, hlen, List.length_cons, List.length_nil]
      rw [e1]
      rw [List.drop_append_of_le_length (by omega : 1 ≤ (l.drop (l.length - 20)).length)]
      rw [List.drop_drop]
      have e2 : (l ++ [m]).length - 20 = l.length - 20 + 1 := by
        simp only [List.length_append, List.length_cons, List.length_nil]
        omega
      rw [e2]
      rw [List.drop_append_of_le_length (by omega : l.length - 20 + 1 ≤ l.length)]
    · simp only [List.length_append, hlen, List.length_cons, List.length_nil]
      omega

theorem foldl_appendKeep20 (ms : List ChatMessage) :
    ∀ l : List ChatMessage,
      ms.foldl appendKeep20 (lastN 20 l) = lastN 20 (l ++ ms) := by
  induction ms with
  | nil => intro l; simp [lastN]
  | cons m ms ih =>
    intro l
    simp only [List.foldl_cons]
    rw [appendKeep20_lastN, ih (l ++ [m]), List.append_assoc]
    rfl

theorem foldl_addMessage_history (ms : List ChatMessage) :
    ∀ ctx : NutritionContext,
      (ms.foldl NutritionContext.addMessage ctx).conversationHistory
        = ms.foldl appendKeep20 ctx.conversationHistory := by
  induction ms with
  | nil => intro ctx; rfl
  | cons m ms ih =>
    intro ctx
    simp only [List.foldl_cons]
    rw [ih]
    rfl

/-- C5: starting from a fresh NutritionContext, after appending any
sequence of messages through addMessage the stored conversationHistory
has at most 20 entries and equals exactly the last (up to) 20 appended
messages in their original append order, the oldest having been evicted
first. -/
theorem conversationHistory_bounded_and_recent (ms : List ChatMessage) (now : Nat) :
    (ms.foldl NutritionContext.addMessage (NutritionContext.create now)).conversationHistory.length ≤ 20 ∧
    (ms.foldl NutritionContext.addMessage (NutritionContext.create now)).conversationHistory
      = ms.drop (ms.length - 20) := by
  have hbase : (NutritionContext.create now).conversationHistory = lastN 20 [] := rfl
  have h : (ms.foldl NutritionContext.addMessage (NutritionContext.create now)).conversationHistory
      = lastN 20 ms := by
    rw [foldl_addMessage_history, hbase, foldl_appendKeep20 ms []]
    rfl
  constructor
  · rw [h]; unfold lastN; rw [List.length_drop]; omega
  · rw [h]; rfl

/-- C9: serializing a UserProfile or a NutritionContext with toJSON and
reloading it with fromJSON yields a record equal in all observable
fields (userId, goals, mealHistory, preferences, createdAt, updatedAt;
conversationHistory, currentMeal, userGoals, sessionStartTime) to the
one saved. -/
theorem persistence_round_trip (p : UserProfile) (ctx : NutritionContext) :
    UserProfile.fromJSON (UserProfile.toJSON p) = p ∧
    NutritionContext.fromJSON (NutritionContext.toJSON ctx) = ctx := by
  constructor
  · cases p; rfl
  · cases ctx; rfl

theorem sweepTask_alarm (now : Nat) (s : ReminderStore) (e : String × StoredWorkflow) :
    (sweepTask now s e).alarm = s.alarm := by
  unfold sweepTask
  split
  · split
    · dsimp only
      split <;> rfl
    · split <;> rfl
  · rfl

theorem handleAlarm_alarm (s : ReminderStore) (now : Nat) :
    (handleAlarm s now).alarm = s.alarm := by
  unfold handleAlarm
  generalize s.storedWorkflows = l
  induction l generalizing s with
  | nil => rfl
  | cons e l ih =>
    simp only [List.foldl_cons]
    rw [ih (sweepTask now s e), sweepTask_alarm]

theorem applyOp_alarm (s : ReminderStore) (op : ReminderOp) :
    (applyOp s op).alarm = (match op with
      | .schedule _ _ t _ => some t
      | _ => s.alarm) := by
  cases op with
  | schedule name ctx t freshId => rfl
  | sweep now => exact handleAlarm_alarm s now
  | cancel workflowId now =>
    show (match cancelWorkflow s workflowId now with
          | .ok s2 => s2
          | .error _ => s).alarm = s.alarm
    unfold cancelWorkflow
    cases List.lookup workflowId s.scheduledReminders with
    | none => rfl
    | some status =>
      dsimp only
      by_cases hc : status.state = WorkflowState.completed ∨ status.state = WorkflowState.failed
      · rw [if_pos hc]
      · rw [if_neg hc]

theorem foldl_applyOp_alarm (ops : List ReminderOp) :
    ∀ s : ReminderStore,
      (ops.foldl applyOp s).alarm
        = ops.foldl (fun acc op => match op with
            | ReminderOp.schedule _ _ t _ => some t
            | _ => acc) s.alarm := by
  induction ops with
  | nil => intro s; rfl
  | cons op ops ih =>
    intro s
    simp only [List.foldl_cons]
    rw [ih (applyOp s op), applyOp_alarm]

/-- C1 counterexample: from the empty store, scheduling task w1 due at
10 and then task w2 due at 20 leaves the alarm armed at 20, the due
time of the task scheduled last, while the earliest pending task is
still due at 10; the timer is therefore not min(current timer,
newDueAt). -/
theorem alarm_not_min_counterexample :
    (let s := runOps [ReminderOp.schedule "meal-reminder"
                        { userId := "u1", workflowId := "w1", data := [] } 10 "f1",
                      ReminderOp.schedule "meal-reminder"
                        { userId := "u1", workflowId := "w2", data := [] } 20 "f2"]
     s.alarm = some 20 ∧ earliestPendingDue s = some 10 ∧
       s.alarm ≠ earliestPendingDue s) := by decide

/-- C1 amended: the Durable Object owns a single alarm slot, so at most
one wake-up timer is armed, but it tracks the most recently scheduled
due time, not the earliest pending one: schedule arms the timer to
newDueAt unconditionally, overwriting any current timer, and a sweep or
a cancel leaves the timer unchanged, so after any sequence of schedule,
sweep and cancel operations the timer equals the due time of the most
recently scheduled task, or is unarmed when nothing was ever
scheduled. -/
theorem alarm_tracks_most_recent_schedule (ops : List ReminderOp) :
    (runOps ops).alarm = lastScheduledDue ops := by
  unfold runOps lastScheduledDue
  rw [foldl_applyOp_alarm]
  rfl

/-- C2 at the failing input: task w1 is scheduled due at 10, the cancel
at time 50 succeeds (its status becomes cancelled), yet the sweep at
time 100 still executes the body of w1 and overwrites its status to
completed, because cancelWorkflow leaves the durable workflow entry in
place and handleAlarm sweeps by durable entries alone, never consulting
the status. -/
theorem cancelled_task_swept_at_failing_input :
    (let mid := runOps [ReminderOp.schedule "meal-reminder"
                          { userId := "u1", workflowId := "w1", data := [] } 10 "f1",
                        ReminderOp.cancel "w1" 50]
     let fin := handleAlarm mid 100
     (List.lookup "w1" mid.scheduledReminders).map (fun st => st.state)
        = some WorkflowState.cancelled ∧
     fin.executed = ["w1"] ∧
     (List.lookup "w1" fin.scheduledReminders).map (fun st => st.state)
        = some WorkflowState.completed) := by decide

/-- C3 counterexample: task w1 is scheduled and then cancelled, so its
state is cancelled, a terminal state; yet a second cancelWorkflow call
succeeds, because the source only rejects the completed and failed
states; the claim that cancelling a task in any terminal state fails is
therefore false for the cancelled state. -/
theorem cancel_of_cancelled_succeeds_counterexample :
    (let s := runOps [ReminderOp.schedule "meal-reminder"
                        { userId := "u1", workflowId := "w1", data := [] } 10 "f1",
                      ReminderOp.cancel "w1" 20]
     (List.lookup "w1" s.scheduledReminders).map (fun st => st.state)
        = some WorkflowState.cancelled ∧
     cancelSucceeds s "w1" 30 = true) := by decide

/-- C3 amended: for a known task, cancelWorkflow succeeds exactly when
the state is neither completed nor failed (so it also succeeds on an
already cancelled task); on a completed or failed task it fails with
the state error and returns no new store; on success the task state
becomes cancelled with completedAt set to the cancel time. -/
theorem cancelWorkflow_state_policy (s : ReminderStore) (workflowId : String)
    (now : Nat) (status : WorkflowStatus)
    (h : List.lookup workflowId s.scheduledReminders = some status) :
    (cancelSucceeds s workflowId now = true ↔
       status.state ≠ WorkflowState.completed ∧ status.state ≠ WorkflowState.failed) ∧
    ((status.state = WorkflowState.completed ∨ status.state = WorkflowState.failed) →
       cancelWorkflow s workflowId now
         = .error ("Cannot cancel " ++ status.state.asString ++ " workflow")) ∧
    ((status.state ≠ WorkflowState.completed ∧ status.state ≠ WorkflowState.failed) →
       (cancelWorkflow s workflowId now).toOption.map
           (fun s2 => List.lookup workflowId s2.scheduledReminders)
         = some (some { status with state := WorkflowState.cancelled,
                                    completedAt := some now })) := by
  unfold cancelSucceeds cancelWorkflow
  rw [h]
  dsimp only
  by_cases hterm : status.state = WorkflowState.completed ∨ status.state = WorkflowState.failed
  · rw [if_pos hterm]
    refine ⟨?_, fun _ => rfl, ?_⟩
    · refine iff_of_false (fun hfalse => Bool.noConfusion hfalse) ?_
      intro hne
      rcases hterm with h1 | h1
      · exact absurd h1 hne.1
      · exact absurd h1 hne.2
    · intro hne
      rcases hterm with h1 | h1
      · exact absurd h1 hne.1
      · exact absurd h1 hne.2
  · rw [if_neg hterm]
    push_neg at hterm
    refine ⟨iff_of_true rfl hterm, ?_, ?_⟩
    · intro hc
      rcases hc with h1 | h1
      · exact absurd h1 hterm.1
      · exact absurd h1 hterm.2
    · intro _
      simp [Except.toOption, lookup_mapSet]

/-- Witness for the amended C3 theorem: a concrete store holding the
pending task w1, where cancellation succeeds. -/
theorem cancelWorkflow_state_policy_witness :
    List.lookup "w1" (oneTaskStore WorkflowState.pending).scheduledReminders
      = some (wStatus WorkflowState.pending) ∧
    cancelSucceeds (oneTaskStore WorkflowState.pending) "w1" 5 = true :=
  ⟨by decide,
   ((cancelWorkflow_state_policy (oneTaskStore WorkflowState.pending) "w1" 5
       (wStatus WorkflowState.pending) (by decide)).1).mpr (by decide)⟩

/-- C4 counterexample: a frame whose dispatch raises an exception
during handler matching produces an error-type frame reading Failed to
process message with the detail appended, not an assistant-role apology
message; the connection stays open. -/
theorem dispatch_exception_not_assistant_counterexample :
    (let res := handleIncomingMessage [boomHandler] rawHello "id0" 7
     res.sent = [OutFrame.error "Failed to process message: boom" 7] ∧
     res.closed = false ∧
     res.sent.all (fun f => !isAssistantMessageFrame f) = true) := by decide

/-- C4 amended: every exception raised during handler matching or
handling is caught at the dispatch boundary and converted into an
error-type frame whose content is Failed to process message followed by
the error detail; the connection is not closed. -/
theorem dispatch_exception_to_error_frame (handlers : List HandlerModel)
    (raw : RawText) (freshId : String) (now : Nat) (msg : ChatMessage) (e : String)
    (hp : parseMessage raw freshId now = some msg)
    (hd : findAndRun handlers msg = .error e) :
    handleIncomingMessage handlers raw freshId now
      = { sent := [OutFrame.error ("Failed to process message: " ++ e) now],
          closed := false } := by
  unfold handleIncomingMessage
  rw [hp]
  dsimp only
  unfold dispatchParsed
  rw [hd]

/-- Witness for the amended C4 theorem at the concrete throwing
handler. -/
theorem dispatch_exception_to_error_frame_witness :
    parseMessage rawHello "id0" 7
        = some { id := "id0", role := MessageRole.user, content := "hi", timestamp := 7 } ∧
    findAndRun [boomHandler]
        { id := "id0", role := MessageRole.user, content := "hi", timestamp := 7 }
      = Except.error "boom" ∧
    handleIncomingMessage [boomHandler] rawHello "id0" 7
      = { sent := [OutFrame.error "Failed to process message: boom" 7],
          closed := false } :=
  ⟨by decide, rfl,
   dispatch_exception_to_error_frame [boomHandler] rawHello "id0" 7
     { id := "id0", role := MessageRole.user, content := "hi", timestamp := 7 }
     "boom" (by decide) rfl⟩

/-- C7: a message whose trimmed lowercased content starts with the
slash command prefix is recognized by CommandHandler.canHandle, and
any message recognized by CommandHandler.canHandle is resolved by the
command handler alone under the registered chain (CommandHandler
first, ChatMessageHandler second, first match wins): the outcome is
exactly the command handle result, and the fallback handler is never
consulted. -/
theorem command_messages_never_reach_fallback (msg : ChatMessage)
    (commandImpl chatImpl : ChatMessage → Except String ChatMessage) :
    ((matchLit "/".data (jsToLower (jsTrim msg.content)).data).isSome = true →
       commandCanHandle msg = true) ∧
    (commandCanHandle msg = true →
       findAndRun (registeredHandlers commandImpl chatImpl) msg
         = (match commandImpl msg with
            | .ok resp => .ok (some resp)
            | .error e => .error e)) := by
  constructor
  · intro hs
    unfold commandCanHandle
    rw [if_pos hs]
  · intro hc
    show findAndRun (commandHandlerModel commandImpl :: [chatHandlerModel chatImpl]) msg = _
    unfold findAndRun commandHandlerModel
    dsimp only
    rw [hc]
    cases commandImpl msg <;> rfl

/-- Witness for the C7 theorem at the concrete slash command. -/
theorem command_messages_never_reach_fallback_witness :
    commandCanHandle cmdMsgFixture = true ∧
    findAndRun (registeredHandlers cmdImplFixture chatImplFixture) cmdMsgFixture
      = .ok (some cmdRespFixture) :=
  ⟨(command_messages_never_reach_fallback cmdMsgFixture cmdImplFixture chatImplFixture).1
     (by decide),
   (command_messages_never_reach_fallback cmdMsgFixture cmdImplFixture chatImplFixture).2
     ((command_messages_never_reach_fallback cmdMsgFixture cmdImplFixture chatImplFixture).1
        (by decide))⟩

/-- C8 counterexample: an inbound frame that is valid JSON but carries
no string content field is not fallen back to a raw-text user message;
parseMessage returns null and the frame is rejected with an
Invalid-message-format error frame, even though a willing handler is
registered. -/
theorem invalid_structured_input_rejected_counterexample :
    (parseMessage rawNoContent "id0" 5 = none ∧
     handleIncomingMessage [willingHandler] rawNoContent "id0" 5
       = { sent := [OutFrame.error "Invalid message format" 5], closed := false }) := by
  exact ⟨by decide, by decide⟩

/-- C8 amended: the raw-text fallback applies exactly to frames on
which JSON.parse throws (or the content access throws inside the try
block): such a frame becomes a user-role Message carrying the entire
raw text and is dispatched through the handler chain; a frame that
parses as JSON without a truthy string content field is instead
rejected with an Invalid-message-format error frame. -/
theorem unparseable_text_falls_back_to_user_message (handlers : List HandlerModel)
    (raw : RawText) (freshId : String) (now : Nat)
    (hp : raw.parsed = none) :
    parseMessage raw freshId now
        = some { id := freshId, role := MessageRole.user, content := raw.text,
                 timestamp := now } ∧
    handleIncomingMessage handlers raw freshId now
        = dispatchParsed handlers
            { id := freshId, role := MessageRole.user, content := raw.text,
              timestamp := now } now := by
  have h1 : parseMessage raw freshId now
      = some { id := freshId, role := MessageRole.user, content := raw.text,
               timestamp := now } := by
    unfold parseMessage
    rw [hp]
  refine ⟨h1, ?_⟩
  unfold handleIncomingMessage
  rw [h1]

/-- Witness for the amended C8 theorem at the concrete plain-text
frame. -/
theorem unparseable_text_falls_back_witness :
    rawHello.parsed = none ∧
    handleIncomingMessage [willingHandler] rawHello "id0" 3
      = dispatchParsed [willingHandler]
          { id := "id0", role := MessageRole.user, content := "hi", timestamp := 3 } 3 :=
  ⟨rfl,
   (unparseable_text_falls_back_to_user_message [willingHandler] rawHello "id0" 3 rfl).2⟩

/-- C6: starting from the freshly mounted supervisor, five consecutive
close events without an intervening open schedule reconnect delays of
2000, 4000, 8000, 16000 and 30000 ms, which is min(1000 * 2 ^ n, 30000)
for n = 1..5; the sixth close schedules no retry and leaves the
supervisor disconnected with the counter exhausted, and any further
close also schedules nothing, so only an explicit connect can
resume. -/
theorem reconnect_backoff_schedule :
    (let run := closeRun 6 SupervisorState.initial
     run.1 = [some 2000, some 4000, some 8000, some 16000, some 30000, none] ∧
     run.2.connected = false ∧
     run.2.reconnectAttempts = maxReconnectAttempts ∧
     (onClose run.2).2 = none) := by decide

/-- C10: a wire frame whose type is anything other than message, system
or error (in particular stream_start, stream_chunk and stream_end
frames), or whose content field is absent, never invokes the onMessage
callback: clientOnMessage yields none, so streamed output never reaches
the application through this interface. -/
theorem stream_frames_never_reach_callback (data : WireFrame) (freshId : String)
    (h : (data.type ≠ some "message" ∧ data.type ≠ some "system" ∧
          data.type ≠ some "error") ∨ data.content = none) :
    clientOnMessage data freshId = none := by
  unfold clientOnMessage
  rcases h with ⟨h1, h2, h3⟩ | hc
  · rw [if_neg h1, if_neg h2, if_neg h3]
  · rw [hc]
    split
    · rfl
    · split
      · rfl
      · split
        · rfl
        · rfl

/-- Witness for the C10 theorem at a concrete stream chunk frame. -/
theorem stream_frames_never_reach_callback_witness :
    (streamChunkFrame.type ≠ some "message" ∧
     streamChunkFrame.type ≠ some "system" ∧
     streamChunkFrame.type ≠ some "error") ∧
    clientOnMessage streamChunkFrame "id0" = none :=
  ⟨by decide,
   stream_frames_never_reach_callback streamChunkFrame "id0"
     (Or.inl (by decide))⟩

end CfAiChat
